import Mathlib

/-!
Shallow embedding of the book-catalog core of `src/app.py`
(class `LibraryManager`): the data model, the mutating operations
`add_book` / `remove_book`, the read operations `search_books` /
`display_statistics`, and the persistence pair `load_library` /
`save_library`.

Python strings are modelled as lists of characters (`PyStr`); `.lower()`
is character-wise lowercasing, `.strip()` drops leading and trailing
whitespace, the `in` operator on strings is contiguous-substring
containment.  Each method of the class is modelled as a function from the
current library (the `self.library` field) to an `OpResult` recording the
library afterwards, whether `self.save_library()` was invoked during the
call, and the value reported to the caller.
-/

namespace LibraryApp

/-- A Python string, as a list of characters. -/
abbrev PyStr := List Char

/-- Python `str.lower()`. -/
def lower (s : PyStr) : PyStr := s.map Char.toLower

/-- Python `str.strip()`: drop leading and trailing whitespace. -/
def strip (s : PyStr) : PyStr :=
  ((s.dropWhile Char.isWhitespace).reverse.dropWhile Char.isWhitespace).reverse

/-- Python `int(x)` applied to a numeric value: truncation toward zero. -/
def pyInt (q : ℚ) : ℤ := q.num.tdiv q.den

/-- Python `q in s` on strings: `q` occurs as a contiguous substring of `s`. -/
def containsSub : PyStr → PyStr → Bool
  | [], q => q.isPrefixOf []
  | c :: t, q => q.isPrefixOf (c :: t) || containsSub t q

/-- One book record: the dictionary appended by `add_book`
(`src/app.py` lines 47-53), with fields `title`, `author`, `year`,
`genre`, `read`. -/
structure Book where
  title : PyStr
  author : PyStr
  year : ℤ
  genre : PyStr
  read : Bool
deriving DecidableEq

/-- The outcome kind a mutating operation reports: `st.success`,
`st.error` on the validation failure in `add_book`, `st.warning` on the
not-found branch of `remove_book`. -/
inductive Outcome where
  | success
  | validationFailure
  | notFound
deriving DecidableEq

/-- The observable result of one method call on the manager: the library
afterwards, whether `save_library()` was invoked, and the reported value. -/
structure OpResult (α : Type) where
  library : List Book
  saved : Bool
  out : α

/-- `LibraryManager.add_book` (`src/app.py` lines 41-55): reject when
`title` or `author` is falsy (the empty string), otherwise append the
trimmed record and save. -/
def add_book (lib : List Book) (title author : PyStr) (year : ℚ)
    (genre : PyStr) (read_status : Bool) : OpResult Outcome :=
  if title = [] ∨ author = [] then
    ⟨lib, false, Outcome.validationFailure⟩
  else
    ⟨lib ++ [⟨strip title, strip author, pyInt year, strip genre, read_status⟩],
     true, Outcome.success⟩

/-- `book["title"].lower() == title.lower()`: the match used by
`remove_book`. -/
def matchesTitle (title : PyStr) (book : Book) : Bool :=
  lower book.title == lower title

/-- `LibraryManager.remove_book` (`src/app.py` lines 57-66): keep the
records whose lowered title differs from the lowered argument, call
`save_library()` unconditionally, and report success exactly when the
count shrank. -/
def remove_book (lib : List Book) (title : PyStr) : OpResult Outcome :=
  let newLib := lib.filter fun book => !(matchesTitle title book)
  ⟨newLib, true,
   if newLib.length < lib.length then Outcome.success else Outcome.notFound⟩

/-- The predicate of `search_books`: the lowered query occurs in the
lowered title or the lowered author. -/
def matchesQuery (query : PyStr) (book : Book) : Bool :=
  containsSub (lower book.title) (lower query) ||
    containsSub (lower book.author) (lower query)

/-- `LibraryManager.search_books` (`src/app.py` lines 68-70): a pure list
comprehension; the library is not reassigned and `save_library()` is not
called. -/
def search_books (lib : List Book) (query : PyStr) : OpResult (List Book) :=
  ⟨lib, false, lib.filter fun book => matchesQuery query book⟩

/-- `LibraryManager.display_statistics` (`src/app.py` lines 72-77):
total count and `read_books / total_books * 100` when the total is
positive, else `0`. -/
def display_statistics (lib : List Book) : OpResult (ℕ × ℚ) :=
  let total_books := lib.length
  let read_books := (lib.filter fun book => book.read).length
  ⟨lib, false,
   (total_books,
    if 0 < total_books then (read_books : ℚ) / (total_books : ℚ) * 100 else 0)⟩

/-- A JSON value, the result of `json.load`. -/
inductive JVal where
  | jstr (s : PyStr)
  | jint (n : ℤ)
  | jbool (b : Bool)
  | jarr (items : List JVal)
  | jobj (fields : List (PyStr × JVal))

/-- The persisted file as `load_library` discriminates it: absent,
present but unparsable, or parsed to a JSON value. -/
inductive FileContent where
  | missing
  | corrupt
  | parsed (v : JVal)

/-- `LibraryManager.load_library` (`src/app.py` lines 26-34): an empty
list when the file is absent or `json.load` raises, otherwise the parsed
value as-is, with no validation and no error raised. -/
def load_library : FileContent → JVal
  | FileContent.missing => JVal.jarr []
  | FileContent.corrupt => JVal.jarr []
  | FileContent.parsed v => v

/-- The JSON object `json.dump` writes for one record: the dictionary of
`src/app.py` lines 47-53, with its five keys in stable order. -/
def bookToJ (b : Book) : JVal :=
  JVal.jobj [("title".data, JVal.jstr b.title),
             ("author".data, JVal.jstr b.author),
             ("year".data, JVal.jint b.year),
             ("genre".data, JVal.jstr b.genre),
             ("read".data, JVal.jbool b.read)]

/-- `LibraryManager.save_library` (`src/app.py` lines 36-39): serialize
the whole library as a JSON array of record objects and overwrite the
file with it. -/
def save_library (lib : List Book) : FileContent :=
  FileContent.parsed (JVal.jarr (lib.map bookToJ))

/-- Python dictionary lookup on a field list: the value at the first
matching key. -/
def jget (key : PyStr) : List (PyStr × JVal) → Option JVal
  | [] => none
  | (k, v) :: rest => if k = key then some v else jget key rest

/-- Read one record back from its JSON object: the five typed fields at
their keys. -/
def jToBook : JVal → Option Book
  | JVal.jobj fields =>
    match jget ("title".data) fields, jget ("author".data) fields,
          jget ("year".data) fields, jget ("genre".data) fields,
          jget ("read".data) fields with
    | some (JVal.jstr t), some (JVal.jstr a), some (JVal.jint y),
      some (JVal.jstr g), some (JVal.jbool r) => some ⟨t, a, y, g, r⟩
    | _, _, _, _, _ => none
  | _ => none

/-- Read back a list of record objects, failing if any item fails. -/
def decodeItems : List JVal → Option (List Book)
  | [] => some []
  | v :: rest =>
    match jToBook v, decodeItems rest with
    | some b, some bs => some (b :: bs)
    | _, _ => none

/-- Read a whole catalog back from a loaded JSON value: an array each of
whose items is a record object. -/
def decodeCatalog : JVal → Option (List Book)
  | JVal.jarr items => decodeItems items
  | _ => none

/-- The empty string is a substring of every string. -/
theorem containsSub_nil (s : PyStr) : containsSub s [] = true := by
  cases s with
  | nil => rfl
  | cons c t => simp [containsSub, List.isPrefixOf]

/-- Splitting a list's length over a predicate and its negation. -/
theorem length_filter_not_add (p : Book → Bool) (l : List Book) :
    (l.filter fun b => !(p b)).length + (l.filter p).length = l.length := by
  induction l with
  | nil => rfl
  | cons b rest ih =>
    by_cases h : p b = true
    · simp [List.filter_cons, h]; omega
    · simp at h
      simp [List.filter_cons, h]; omega

/-- Decoding a record object encoded from a record gives the record back. -/
theorem jToBook_bookToJ (b : Book) : jToBook (bookToJ b) = some b := rfl

/-- C1: for every catalog and title `t`, `remove_book t` keeps exactly the
records whose title does not case-insensitively equal `t` (so it removes
all matches, not just the first), keeps them in their original relative
order, and the resulting length is the prior length minus the prior count
of matches. -/
theorem remove_book_removes_all_matches (lib : List Book) (t : PyStr) :
    (remove_book lib t).library = lib.filter (fun b => !(matchesTitle t b)) ∧
    (remove_book lib t).library.Sublist lib ∧
    (remove_book lib t).library.length
      = lib.length - (lib.filter (matchesTitle t)).length := by
  refine ⟨rfl, List.filter_sublist lib, ?_⟩
  have h := length_filter_not_add (matchesTitle t) lib
  show (lib.filter fun b => !(matchesTitle t b)).length
    = lib.length - (lib.filter (matchesTitle t)).length
  omega

/-- C2 counterexample: a whitespace-only title is empty after trimming,
yet `add_book` reports success, appends a record, and calls
`save_library()` — the validation check tests the untrimmed string. -/
theorem add_book_whitespace_passes :
    strip ("   ".data) = [] ∧
    (add_book [] ("   ".data) ("A".data) 2024 [] false).out = Outcome.success ∧
    (add_book [] ("   ".data) ("A".data) 2024 [] false).library.length = 1 ∧
    (add_book [] ("   ".data) ("A".data) 2024 [] false).saved = true := by
  refine ⟨rfl, ?_, ?_, ?_⟩ <;> decide

/-- C2 (amended): `add_book` fails with a validation failure, leaves the
catalog unchanged and does not call `save_library()` exactly when `title`
or `author` is the empty string *before* trimming; whitespace-only
strings are not rejected. -/
theorem add_book_rejects_empty_unstripped (lib : List Book)
    (title author : PyStr) (year : ℚ) (genre : PyStr) (rs : Bool)
    (h : title = [] ∨ author = []) :
    add_book lib title author year genre rs
      = ⟨lib, false, Outcome.validationFailure⟩ := by
  unfold add_book
  rw [if_pos h]

/-- Witness for the amended C2 at a concrete input. -/
theorem add_book_rejects_empty_unstripped_witness :
    add_book [] [] ("A".data) 2024 [] false
      = ⟨[], false, Outcome.validationFailure⟩ :=
  add_book_rejects_empty_unstripped [] [] ("A".data) 2024 [] false (Or.inl rfl)

/-- C3 counterexample: `remove_book` on a title with zero matches reports
not-found and leaves the catalog unchanged, but it does call
`save_library()` — the save is unconditional in the source. -/
theorem remove_book_no_match_still_saves :
    (remove_book [] ("x".data)).library = [] ∧
    (remove_book [] ("x".data)).out = Outcome.notFound ∧
    (remove_book [] ("x".data)).saved = true := by
  refine ⟨rfl, rfl, rfl⟩

/-- C3 (amended): on a title with zero case-insensitive matches,
`remove_book` leaves the catalog unchanged and reports not-found rather
than a validation failure, but `save_library()` is still invoked (a
persistence write occurs unconditionally). -/
theorem remove_book_no_match_spec (lib : List Book) (t : PyStr)
    (h : ∀ b ∈ lib, matchesTitle t b = false) :
    (remove_book lib t).library = lib ∧
    (remove_book lib t).out = Outcome.notFound ∧
    (remove_book lib t).saved = true := by
  have hfil : (lib.filter fun b => !(matchesTitle t b)) = lib :=
    List.filter_eq_self.mpr (fun b hb => by simp [h b hb])
  refine ⟨hfil, ?_, rfl⟩
  show (if (lib.filter fun b => !(matchesTitle t b)).length < lib.length
        then Outcome.success else Outcome.notFound) = Outcome.notFound
  rw [hfil, if_neg (lt_irrefl _)]

/-- Witness for the amended C3 at a concrete input. -/
theorem remove_book_no_match_spec_witness :
    (remove_book [⟨"a".data, "b".data, 1, [], false⟩] ("x".data)).library
        = [⟨"a".data, "b".data, 1, [], false⟩] ∧
    (remove_book [⟨"a".data, "b".data, 1, [], false⟩] ("x".data)).out
        = Outcome.notFound ∧
    (remove_book [⟨"a".data, "b".data, 1, [], false⟩] ("x".data)).saved
        = true :=
  remove_book_no_match_spec [⟨"a".data, "b".data, 1, [], false⟩] ("x".data)
    (by decide)

/-- C4: on input whose trimmed title and author are non-empty, `add_book`
appends exactly one record, built from the trimmed title, author and
genre, the integer-coerced year and the read flag, to the end of the
catalog, calls `save_library()` and reports success; no duplicate check
is made, so adding the same input twice appends the same record twice. -/
theorem add_book_valid_appends (lib : List Book) (title author : PyStr)
    (year : ℚ) (genre : PyStr) (rs : Bool)
    (ht : strip title ≠ []) (ha : strip author ≠ []) :
    add_book lib title author year genre rs
      = ⟨lib ++ [⟨strip title, strip author, pyInt year, strip genre, rs⟩],
         true, Outcome.success⟩ ∧
    (add_book (add_book lib title author year genre rs).library
        title author year genre rs).library
      = lib ++ [⟨strip title, strip author, pyInt year, strip genre, rs⟩,
                ⟨strip title, strip author, pyInt year, strip genre, rs⟩] := by
  have hcond : ¬(title = [] ∨ author = []) := by
    rintro (h | h)
    · exact ht (by rw [h]; rfl)
    · exact ha (by rw [h]; rfl)
  constructor
  · unfold add_book
    rw [if_neg hcond]
  · unfold add_book
    rw [if_neg hcond, if_neg hcond]
    simp

/-- Witness for C4 at a concrete input. -/
theorem add_book_valid_appends_witness :
    (add_book [] (" Dune ".data) ("Frank Herbert".data) 1965
        ("Sci-Fi".data) true).out = Outcome.success ∧
    (add_book [] (" Dune ".data) ("Frank Herbert".data) 1965
        ("Sci-Fi".data) true).library
      = [⟨"Dune".data, "Frank Herbert".data, 1965, "Sci-Fi".data, true⟩] := by
  have h := add_book_valid_appends [] (" Dune ".data) ("Frank Herbert".data)
    1965 ("Sci-Fi".data) true (by decide) (by decide)
  rw [h.1]
  exact ⟨rfl, by decide⟩

/-- C5: `search_books` returns exactly the subsequence of records, in
original order, whose title or author contains the query
case-insensitively; the empty query returns the whole catalog; the
library is left untouched and `save_library()` is not invoked. -/
theorem search_books_filters (lib : List Book) (q : PyStr) :
    (search_books lib q).out = lib.filter (matchesQuery q) ∧
    (search_books lib q).out.Sublist lib ∧
    (∀ b, b ∈ (search_books lib q).out ↔ b ∈ lib ∧ matchesQuery q b = true) ∧
    (search_books lib []).out = lib ∧
    (search_books lib q).library = lib ∧
    (search_books lib q).saved = false := by
  refine ⟨rfl, List.filter_sublist lib, ?_, ?_, rfl, rfl⟩
  · intro b
    exact List.mem_filter
  · show (lib.filter fun b => matchesQuery [] b) = lib
    refine List.filter_eq_self.mpr (fun b _ => ?_)
    simp [matchesQuery, lower, containsSub_nil]

/-- C6: `display_statistics` returns the pair of the total count and the
percentage `100 * readCount / totalCount` (`0` on the empty catalog),
mutating nothing and saving nothing; on the empty catalog it returns
`(0, 0)` and on a four-record catalog with one record read it returns
`(4, 25)`. -/
theorem display_statistics_spec (lib : List Book) :
    (display_statistics lib).out
      = (lib.length,
         if 0 < lib.length
         then 100 * (((lib.filter fun b => b.read).length : ℚ)) / (lib.length : ℚ)
         else 0) ∧
    (display_statistics lib).library = lib ∧
    (display_statistics lib).saved = false ∧
    (display_statistics ([] : List Book)).out = (0, (0 : ℚ)) ∧
    (display_statistics [⟨"a".data, "b".data, 1, [], true⟩,
                         ⟨"c".data, "d".data, 2, [], false⟩,
                         ⟨"e".data, "f".data, 3, [], false⟩,
                         ⟨"g".data, "h".data, 4, [], false⟩]).out
      = (4, (25 : ℚ)) := by
  refine ⟨?_, rfl, rfl, rfl, ?_⟩
  · show (lib.length,
      if 0 < lib.length
      then ((lib.filter fun b => b.read).length : ℚ) / (lib.length : ℚ) * 100
      else (0 : ℚ)) = _
    congr 1
    split_ifs
    · ring
    · rfl
  · show ((4 : ℕ), (1 : ℚ) / (4 : ℚ) * 100) = (4, (25 : ℚ))
    norm_num

/-- C7: `load_library` yields the empty catalog on a missing file and,
silently, on an unparsable file; on a parsable file it returns the parsed
value exactly as stored, with no validation of the loaded records; being
a total function, it raises nothing in any case. -/
theorem load_library_lenient :
    load_library FileContent.missing = JVal.jarr [] ∧
    load_library FileContent.corrupt = JVal.jarr [] ∧
    ∀ v : JVal, load_library (FileContent.parsed v) = v :=
  ⟨rfl, rfl, fun _ => rfl⟩

/-- C8: saving a catalog and loading it back yields a stored sequence
that decodes to the original records, field for field. -/
theorem save_load_roundtrip (cat : List Book) :
    decodeCatalog (load_library (save_library cat)) = some cat := by
  show decodeItems (cat.map bookToJ) = some cat
  induction cat with
  | nil => rfl
  | cons b rest ih => simp [decodeItems, jToBook_bookToJ, ih]

/-- C9: the percentage returned by `display_statistics` always lies
between `0` and `100`: the division is guarded by the positivity test on
the total count, and the read count never exceeds the total count. -/
theorem display_statistics_percentage_bounds (lib : List Book) :
    0 ≤ (display_statistics lib).out.2 ∧
    (display_statistics lib).out.2 ≤ 100 := by
  show 0 ≤ (if 0 < lib.length
      then ((lib.filter fun b => b.read).length : ℚ) / (lib.length : ℚ) * 100
      else (0 : ℚ)) ∧
    (if 0 < lib.length
      then ((lib.filter fun b => b.read).length : ℚ) / (lib.length : ℚ) * 100
      else (0 : ℚ)) ≤ 100
  split_ifs with h
  · have hle : ((lib.filter fun b => b.read).length : ℚ) ≤ (lib.length : ℚ) := by
      exact_mod_cast List.length_filter_le _ lib
    have hpos : (0 : ℚ) < (lib.length : ℚ) := by exact_mod_cast h
    constructor
    · positivity
    · rw [div_mul_eq_mul_div, div_le_iff₀ hpos]
      nlinarith
  · norm_num

/-- C10: removal never edits a surviving record: every record kept by
`remove_book` occurs, with all five fields unchanged, among the original
records, and no record's multiplicity grows. -/
theorem remove_book_survivors_unchanged (lib : List Book) (t : PyStr) :
    (∀ b : Book, (remove_book lib t).library.count b ≤ lib.count b) ∧
    ∀ b ∈ (remove_book lib t).library, b ∈ lib := by
  constructor
  · intro b
    exact (List.filter_sublist lib).count_le b
  · intro b hb
    exact List.mem_of_mem_filter hb

end LibraryApp
